import Mathlib

/-!
Shallow embedding of `gssnng/score_funs.py` (the per-cell, per-gene-set
scoring core of the gssnng package): statistics primitives, the seven
scoring methods, the extractor `expr_format`, the dispatcher
`method_selector`, and the mode combiner `scorefun`.

Modelling conventions:
  * Python floats are modelled as rationals `ℚ` (every IEEE double is a
    rational number); the two numeric kernels whose exact values no claim
    depends on — `np.sqrt` (inside `np.std`) and the statsmodels MAD scale
    constant `Gaussian.ppf(3/4)` — together with the external collaborator
    `gssnng.util.normalisation` are gathered in an `Externals` record and
    threaded as a parameter, so every definition stays computable.
  * Python exceptions are modelled with `Except PyExn`; `method_selector`'s
    dynamically-typed result (a `(score, dispersion)` tuple or the string
    `"ERROR"`) is the sum type `SelVal`, and the `score`/`var` fields of the
    result record (a float, or a character sliced out of `"ERROR"`) are the
    sum type `PyVal`.
-/

namespace Gssnng

/-- External numeric collaborators, modelled as parameters.
Modelled from the spec: `normalisation` is `gssnng.util.normalisation`
(repo code outside this file's source; spec §4.3 gives only the black-box
contract `normalize(mode, library_len, score_list, score, sig_len) → float
in [0,1]`); `sqrtQ` is numpy's floating-point square root used by `np.std`;
`madC` is the statsmodels `robust.scale.mad` scale constant
`Gaussian.ppf(3/4) ≈ 0.6744897501960817`.  No claim depends on the values
of these kernels, only on how their outputs flow through the code. -/
structure Externals where
  sqrtQ : ℚ → ℚ
  madC : ℚ
  normalisation : String → ℕ → List ℚ → ℚ → ℕ → ℚ

/-- One pandas Series: an index of gene identifiers and a value per gene. -/
structure Series where
  index : List String
  valOf : String → ℚ

/-- The values of a series in index order (what `np.mean(series)` etc. see). -/
def Series.values (s : Series) : List ℚ :=
  s.index.map s.valOf

/-- The per-cell expression/rank table: a gene index and the three columns
`counts`, `uprank`, `dnrank` (spec §6). -/
structure Table where
  index : List String
  countsOf : String → ℚ
  uprankOf : String → ℚ
  dnrankOf : String → ℚ

/-- The `counts` column of the table, as a series (`x.counts`). -/
def Table.counts (x : Table) : Series := ⟨x.index, x.countsOf⟩

/-- The `uprank` column of the table, as a series (`x.uprank`). -/
def Table.uprank (x : Table) : Series := ⟨x.index, x.uprankOf⟩

/-- The `dnrank` column of the table, as a series (`x.dnrank`). -/
def Table.dnrank (x : Table) : Series := ⟨x.index, x.dnrankOf⟩

/-- A gene set: name, mode string (`"UP"`, `"DN"` or `"BOTH"`), and the two
gene lists (spec §3, §6). -/
structure GeneSet where
  name : String
  mode : String
  genes_up : List String
  genes_dn : List String

/-- The method-parameters map: `normalization` (for `singscore`) and
`rbo_depth` (for `rank_biased_overlap`), spec §3. -/
structure MethodParams where
  normalization : String
  rbo_depth : ℕ

/- ## Statistics primitives (numpy / statsmodels, on rationals) -/

/-- Model of `np.sum` on a list of floats. -/
def np_sum (l : List ℚ) : ℚ := l.sum

/-- Model of `np.mean`: sum divided by length.  (For the empty list Python
produces `nan`; here the `0/0 = 0` convention applies — no claim evaluates
a mean of an empty list.) -/
def np_mean (l : List ℚ) : ℚ := l.sum / l.length

/-- Model of `np.median`: sort ascending; odd length takes the middle
element, even length averages the two middle elements.  (Empty list: `nan`
in Python, junk value `0` here — never relied on.) -/
def np_medianQ (l : List ℚ) : ℚ :=
  let s := List.insertionSort (· ≤ ·) l
  let n := l.length
  if n = 0 then 0
  else if n % 2 = 1 then s.getD (n / 2) 0
  else (s.getD (n / 2 - 1) 0 + s.getD (n / 2) 0) / 2

/-- Model of `statsmodels.robust.scale.mad`: the median absolute deviation
about the median, divided by the scale constant `E.madC`. -/
def mad (E : Externals) (l : List ℚ) : ℚ :=
  np_medianQ (l.map (fun v => |v - np_medianQ l|)) / E.madC

/-- Population variance, the quantity under the square root in `np.std`. -/
def np_varQ (l : List ℚ) : ℚ :=
  np_mean (l.map (fun v => (v - np_mean l) ^ 2))

/-- Model of `np.std` (population standard deviation): the external
floating-point square root applied to the population variance. -/
def np_std (E : Externals) (l : List ℚ) : ℚ :=
  E.sqrtQ (np_varQ l)

/- ## Scoring methods (source lines 5–132) -/

/-- Source `summed_up(su)`: score is `np.sum(su)`, dispersion is `mad(su)`. -/
def summed_up (E : Externals) (su : List ℚ) : ℚ × ℚ :=
  (np_sum su, mad E su)

/-- Source `median_score(su)`: score is `np.median(su)`, dispersion `mad(su)`. -/
def median_score (E : Externals) (su : List ℚ) : ℚ × ℚ :=
  (np_medianQ su, mad E su)

/-- Source `average_score(su)`: score is `np.mean(su)`, dispersion `np.std(su)`. -/
def average_score (E : Externals) (su : List ℚ) : ℚ × ℚ :=
  (np_mean su, np_std E su)

/-- Source `mean_z(exprdat, su)`: centers each extracted value by the
population mean, scales by the population standard deviation, and averages
the absolute results; dispersion is the population standard deviation. -/
def mean_z (E : Externals) (exprdat : Series) (su : List ℚ) : ℚ × ℚ :=
  let vals_mean := np_mean exprdat.values
  let vals_std := np_std E exprdat.values
  let centered := su.map (fun v => |v - vals_mean| / vals_std)
  (np_mean centered, vals_std)

/-- Source `robust_std(exprdat, su)`: like `mean_z` but with median and MAD
of the population, and the median of the centered values as score. -/
def robust_std (E : Externals) (exprdat : Series) (su : List ℚ) : ℚ × ℚ :=
  let cnts_med := np_medianQ exprdat.values
  let mad_su := mad E exprdat.values
  let centered_cnts := su.map (fun v => |v - cnts_med| / mad_su)
  (np_medianQ centered_cnts, mad_su)

/-- The summand of one `rank_biased_overlap` loop iteration `i`: the size of
the intersection of the index set of the length-`(i+1)` prefix of `su`
(`set(su[0:(i+1)].index)`) with the gene set. -/
def rbo_count (su : List (String × ℚ)) (gs : List String) (i : ℕ) : ℕ :=
  (((su.take (i + 1)).map Prod.fst).dedup.filter (fun g => decide (g ∈ gs))).length

/-- The `rank_biased_overlap` loop: one call per remaining gene-set element
(`for i, gi in enumerate(gs)`), adding `rbo_count` for iteration `i` and
breaking after the body when `i > limit`. -/
def rbo_go (su : List (String × ℚ)) (gs : List String) (limit : ℕ) :
    ℕ → ℕ → ℚ → ℚ
  | _, 0, acc => acc
  | i, n + 1, acc =>
    let acc2 := acc + (rbo_count su gs i : ℚ)
    if limit < i then acc2 else rbo_go su gs limit (i + 1) n acc2

/-- Source `rank_biased_overlap(x, su, gs, limit)`: cumulative prefix
intersection count (the `x` parameter is unused by the body); dispersion is
`mad` of the values of `su`.  Here `su` is an indexed series slice (the body
reads `su[0:(i+1)].index`) and `gs` the list of gene identifiers. -/
def rank_biased_overlap (E : Externals) (x : Series) (su : List (String × ℚ))
    (gs : List String) (limit : ℕ) : ℚ × ℚ :=
  (rbo_go su gs limit 0 gs.length 0, mad E (su.map Prod.snd))

/-- Source `singscore(x, su, sig_len, norm_method)`: normalises the mean of
the extracted values through the external `normalisation` collaborator,
shifts by `0.5`, and pairs with `mad(su)`. -/
def singscore (E : Externals) (x : Series) (su : List ℚ) (sig_len : ℕ)
    (norm_method : String) : ℚ × ℚ :=
  let score_up := np_mean su
  let norm_up := E.normalisation norm_method x.index.length su score_up sig_len
  let norm_up2 := norm_up - 1 / 2
  (norm_up2, mad E su)

/- ## Extractor (source lines 135–143) -/

/-- Source `expr_format(x, exprdat, geneset_genes)`: walk the gene list,
appending `exprdat[j]` when `j` is in `x`'s index and decrementing the
signature length otherwise. -/
def expr_format (x : Table) (exprdat : Series) (geneset_genes : List String) :
    List ℚ × ℕ :=
  geneset_genes.foldl
    (fun acc j =>
      if j ∈ x.index then (acc.1 ++ [exprdat.valOf j], acc.2)
      else (acc.1, acc.2 - 1))
    ([], geneset_genes.length)

/- ## Dynamic values and exceptions -/

/-- Python exceptions that the embedded fragment can raise. -/
inductive PyExn where
  | typeError (fn : String)
  | unboundLocal (v : String)
deriving DecidableEq

/-- The dynamically-typed result of `method_selector`: a
`(score, dispersion)` tuple, or the string `"ERROR"`. -/
inductive SelVal where
  | pair (p : ℚ × ℚ)
  | errstr
deriving DecidableEq

/-- A dynamically-typed Python value appearing in the `score`/`var` fields
of the result record: a float, or a string (sliced out of `"ERROR"`). -/
inductive PyVal where
  | num (q : ℚ)
  | str (s : String)
deriving DecidableEq

/-- Python subscript `res0[0]` on a selector result: first tuple component,
or the first character of `"ERROR"`. -/
def selItem0 : SelVal → PyVal
  | .pair p => .num p.1
  | .errstr => .str "E"

/-- Python subscript `res0[1]` on a selector result: second tuple component,
or the second character of `"ERROR"`. -/
def selItem1 : SelVal → PyVal
  | .pair p => .num p.2
  | .errstr => .str "R"

/-- Python `+` on two dynamic values: numeric addition, string
concatenation, and a `TypeError` on a mixed pair. -/
def pyAdd : PyVal → PyVal → Except PyExn PyVal
  | .num a, .num b => .ok (.num (a + b))
  | .str a, .str b => .ok (.str (a ++ b))
  | _, _ => .error (.typeError "unsupported operand")

/- ## Method selector (source lines 146–185) -/

/-- Source `method_selector(gs, x, exprdat, geneset_genes, method,
method_params)`: extract the values, then dispatch on the method name in
source order.  Three call sites pass an argument list the callee's
signature cannot accept, so those branches raise `TypeError` before the
scoring function body runs:
  * line 171 `median_score(exprdat, su)` — two positional arguments, but
    `def median_score(su)` (line 21) accepts exactly one;
  * line 174 `average_score(exprdat, su)` — likewise two arguments against
    the one-parameter `def average_score(su)` (line 37);
  * line 180 `rank_biased_overlap(exprdat, su, gs, gs.mode,
    method_params['rbo_depth'])` — five positional arguments, but
    `def rank_biased_overlap(x, su, gs, limit=100)` (line 89) accepts at
    most four.
An unrecognised method name returns the string `"ERROR"`. -/
def method_selector (E : Externals) (gs : GeneSet) (x : Table)
    (exprdat : Series) (geneset_genes : List String) (method : String)
    (method_params : MethodParams) : Except PyExn SelVal :=
  let v := expr_format x exprdat geneset_genes
  let su := v.1
  let sig_len := v.2
  if method = "singscore" then
    .ok (.pair (singscore E exprdat su sig_len method_params.normalization))
  else if method = "robust_std" then
    .ok (.pair (robust_std E exprdat su))
  else if method = "summed_up" then
    .ok (.pair (summed_up E su))
  else if method = "median_score" then
    .error (.typeError "median_score")
  else if method = "average_score" then
    .error (.typeError "average_score")
  else if method = "mean_z" then
    .ok (.pair (mean_z E exprdat su))
  else if method = "rank_biased_overlap" then
    .error (.typeError "rank_biased_overlap")
  else
    .ok .errstr

/- ## Mode combiner (source lines 188–234) -/

/-- Result record `dict(barcode=…, name=…, mode=…, score=…, var=…)`. -/
structure ScoreRecord where
  barcode : String
  name : String
  mode : String
  score : PyVal
  var : PyVal
deriving DecidableEq

/-- Building of the pass-through record of the single-selector branches:
`dict(…, score=res0[0], var=res0[1])` after the selector call (an exception
in the call propagates). -/
def passRecord (barcode nm md : String) (r : Except PyExn SelVal) :
    Except PyExn ScoreRecord :=
  match r with
  | .error e => .error e
  | .ok res0 => .ok ⟨barcode, nm, md, selItem0 res0, selItem1 res0⟩

/-- Building of the combined record of the BOTH branches:
`dict(…, score=(res0_up[0]+res0_dn[0]), var=(res0_up[1]+res0_dn[1]))`,
propagating the first exception. -/
def bothRecord (barcode nm md : String) (u d : Except PyExn SelVal) :
    Except PyExn ScoreRecord :=
  match u with
  | .error e => .error e
  | .ok res0_up =>
    match d with
    | .error e => .error e
    | .ok res0_dn =>
      match pyAdd (selItem0 res0_up) (selItem0 res0_dn) with
      | .error e => .error e
      | .ok s =>
        match pyAdd (selItem1 res0_up) (selItem1 res0_dn) with
        | .error e => .error e
        | .ok v => .ok ⟨barcode, nm, md, s, v⟩

/-- Source `scorefun(gs, x, method, method_params, barcode, ranked)`: the
six `(mode, ranked)` branches in source order; falling through every branch
leaves `res1` unassigned and the trailing `return res1` raises
`UnboundLocalError`. -/
def scorefun (E : Externals) (gs : GeneSet) (x : Table) (method : String)
    (method_params : MethodParams) (barcode : String) (ranked : Bool) :
    Except PyExn ScoreRecord :=
  if gs.mode = "UP" ∧ ranked = false then
    passRecord barcode gs.name gs.mode
      (method_selector E gs x (Table.counts x) gs.genes_up method method_params)
  else if gs.mode = "DN" ∧ ranked = false then
    passRecord barcode gs.name gs.mode
      (method_selector E gs x (Table.counts x) gs.genes_dn method method_params)
  else if gs.mode = "BOTH" ∧ ranked = false then
    bothRecord barcode gs.name gs.mode
      (method_selector E gs x (Table.counts x) gs.genes_up method method_params)
      (method_selector E gs x (Table.counts x) gs.genes_dn method method_params)
  else if gs.mode = "UP" ∧ ranked = true then
    passRecord barcode gs.name gs.mode
      (method_selector E gs x (Table.uprank x) gs.genes_up method method_params)
  else if gs.mode = "DN" ∧ ranked = true then
    passRecord barcode gs.name gs.mode
      (method_selector E gs x (Table.dnrank x) gs.genes_dn method method_params)
  else if gs.mode = "BOTH" ∧ ranked = true then
    bothRecord barcode gs.name gs.mode
      (method_selector E gs x (Table.uprank x) gs.genes_up method method_params)
      (method_selector E gs x (Table.dnrank x) gs.genes_dn method method_params)
  else
    .error (.unboundLocal "res1")

/-- The values source used for the up-gene selector call: `x.uprank` when
ranked, `x.counts` otherwise. -/
def upSource (x : Table) : Bool → Series
  | true => Table.uprank x
  | false => Table.counts x

/-- The values source used for the down-gene selector call: `x.dnrank` when
ranked, `x.counts` otherwise. -/
def dnSource (x : Table) : Bool → Series
  | true => Table.dnrank x
  | false => Table.counts x

/- ## Concrete fixtures for witnesses and counterexamples -/

/-- Concrete external kernels: identity square root, MAD scale constant 1,
normalisation constantly 0 (which lies in the contract range `[0,1]`). -/
def E0 : Externals := ⟨fun q => q, 1, fun _ _ _ _ _ => 0⟩

/-- A two-gene table with counts 3 and 5, uprank 7, dnrank 9. -/
def xW : Table :=
  ⟨["g1", "g2"], (fun g => if g = "g1" then 3 else 5), (fun _ => 7), (fun _ => 9)⟩

/-- A table whose every column is constant 1 (zero variance and zero MAD). -/
def xDeg : Table := ⟨["gA", "gB"], (fun _ => 1), (fun _ => 1), (fun _ => 1)⟩

/-- A BOTH-mode gene set with one up-gene and one down-gene. -/
def gsB : GeneSet := ⟨"sig", "BOTH", ["g1"], ["g2"]⟩

/-- An UP-mode gene set. -/
def gsU : GeneSet := ⟨"s", "UP", ["g1"], []⟩

/-- A DN-mode gene set. -/
def gsD : GeneSet := ⟨"s2", "DN", [], ["g2"]⟩

/-- An UP-mode gene set over the degenerate table. -/
def gsDg : GeneSet := ⟨"d", "UP", ["gA"], []⟩

/-- A gene set whose mode is none of UP/DN/BOTH. -/
def gsS : GeneSet := ⟨"s", "SIDEWAYS", ["g1"], []⟩

/-- Method parameters used by the fixtures. -/
def mp0 : MethodParams := ⟨"standard", 2⟩

/-- The ranked sequence `[A, D, B, C]` of the spec's rank-biased-overlap
example (values arbitrary). -/
def exSu : List (String × ℚ) := [("A", 4), ("D", 3), ("B", 2), ("C", 1)]

/-- The gene set `{A, B, C}` of the spec's rank-biased-overlap example. -/
def exGs : List String := ["A", "B", "C"]

/-- A dummy series for the unused first parameter of `rank_biased_overlap`. -/
def dummySeries : Series := ⟨[], fun _ => 0⟩

/- ## Helper lemmas -/

/-- Invariant of the `expr_format` fold: appends the values of the present
genes in order and decrements the counter once per absent gene. -/
lemma expr_format_foldl (x : Table) (e : Series) :
    ∀ (genes : List String) (acc : List ℚ) (k : ℕ),
      genes.foldl
        (fun acc j =>
          if j ∈ x.index then (acc.1 ++ [e.valOf j], acc.2)
          else (acc.1, acc.2 - 1))
        (acc, k)
      = (acc ++ (genes.filter (fun g => decide (g ∈ x.index))).map e.valOf,
         k - (genes.filter (fun g => decide (¬ g ∈ x.index))).length) := by
  intro genes
  induction genes with
  | nil => intro acc k; simp
  | cons j rest ih =>
    intro acc k
    by_cases h : j ∈ x.index
    · simp [h, ih]
    · simp [h, ih, Nat.sub_sub, Nat.add_comm]

/-- A list's length splits into the lengths of a filter and of the filter
by the negated predicate. -/
lemma length_filter_add_length_filter_neg (p : String → Bool) :
    ∀ l : List String,
      (l.filter p).length + (l.filter (fun a => ! p a)).length = l.length := by
  intro l
  induction l with
  | nil => simp
  | cons a t ih =>
    by_cases h : p a <;> simp [h, ih] <;> omega

/-- C3: for a gene list of which exactly the genes present in the table's
index match, `expr_format` returns the `exprdat` entries of the present
genes in gene-set order (hence a sequence of length `k` when `k` genes are
present), with `matched_len` equal both to the number of present genes and
to the signature length reduced by one per absent gene; it is a total
function (no exception path), and on the empty gene list it returns the
empty sequence with `matched_len = 0`. -/
theorem expr_format_spec (x : Table) (e : Series) (genes : List String) :
    (expr_format x e genes).1
        = (genes.filter (fun g => decide (g ∈ x.index))).map e.valOf
      ∧ (expr_format x e genes).1.length
        = (genes.filter (fun g => decide (g ∈ x.index))).length
      ∧ (expr_format x e genes).2
        = (genes.filter (fun g => decide (g ∈ x.index))).length
      ∧ (expr_format x e genes).2
        = genes.length - (genes.filter (fun g => decide (¬ g ∈ x.index))).length
      ∧ expr_format x e [] = ([], 0) := by
  have hfold := expr_format_foldl x e genes [] genes.length
  have hlen := length_filter_add_length_filter_neg
    (fun g => decide (g ∈ x.index)) genes
  simp only [decide_not] at hfold ⊢
  refine ⟨?_, ?_, ?_, ?_, ?_⟩
  · rw [expr_format, hfold]; simp
  · rw [expr_format, hfold]; simp
  · rw [expr_format, hfold]; simp; omega
  · rw [expr_format, hfold]
  · rfl

/-- Closed form of the `rank_biased_overlap` loop: starting at iteration
`i` with `n` gene-set elements left, it adds the prefix-intersection counts
of `min n K` further iterations, where `K = limit + 2 - i` while
`i ≤ limit + 1` and `K = 1` afterwards (the body runs once more after the
bound is exceeded, then breaks). -/
lemma rbo_go_sum (su : List (String × ℚ)) (gs : List String) (limit : ℕ) :
    ∀ (n i : ℕ) (acc : ℚ),
      rbo_go su gs limit i n acc
        = acc + ∑ j ∈ Finset.range
            (min n (if i ≤ limit + 1 then limit + 2 - i else 1)),
            (rbo_count su gs (i + j) : ℚ) := by
  intro n
  induction n with
  | zero => intro i acc; simp [rbo_go]
  | succ n ih =>
    intro i acc
    rw [rbo_go]
    by_cases hlt : limit < i
    · have hmin : min (n + 1) (if i ≤ limit + 1 then limit + 2 - i else 1) = 1 := by
        split <;> omega
      rw [if_pos hlt, hmin, Finset.sum_range_one]
      simp
    · have hi : i ≤ limit := by omega
      rw [if_neg hlt, ih (i + 1)]
      have h1 : (if i + 1 ≤ limit + 1 then limit + 2 - (i + 1) else 1)
          = limit + 1 - i := by
        rw [if_pos (by omega)]; omega
      have h2 : (if i ≤ limit + 1 then limit + 2 - i else 1)
          = (limit + 1 - i) + 1 := by
        rw [if_pos (by omega)]; omega
      have h3 : min (n + 1) ((limit + 1 - i) + 1) = min n (limit + 1 - i) + 1 := by
        omega
      rw [h1, h2, h3, Finset.sum_range_succ']
      have h4 : ∀ j : ℕ, i + 1 + j = i + (j + 1) := by intro j; omega
      simp only [h4, Nat.add_zero]
      ring

/-- C4 (amended): the `rank_biased_overlap` loop iterates once per
gene-set element and breaks only after the body of the iteration in which
`i` first exceeds `limit`, so it accumulates the prefix-intersection
counts of `min gs.length (limit + 2)` prefixes of the ranked sequence, the
prefix of length `i + 1` contributing the size of the intersection of its
index set with the gene set. -/
theorem rbo_prefix_boundary (E : Externals) (x : Series)
    (su : List (String × ℚ)) (gs : List String) (limit : ℕ) :
    (rank_biased_overlap E x su gs limit).1
      = ∑ i ∈ Finset.range (min gs.length (limit + 2)),
          (rbo_count su gs i : ℚ) := by
  show rbo_go su gs limit 0 gs.length 0 = _
  rw [rbo_go_sum su gs limit gs.length 0 0]
  simp

/-- C4 (counterexample): for gene set `{A, B, C}`, ranked sequence
`[A, D, B, C]` and `limit = 1`, the loop scores three prefixes — lengths
1, 2 and 3, with intersection counts 1, 1 and 2 — so the cumulative score
is 4, not the 2 the claim asserts (and not two prefixes): the break fires
only after the body of iteration `i = 2`. -/
theorem rbo_limit_counterexample :
    (rank_biased_overlap E0 dummySeries exSu exGs 1).1 = 4
      ∧ rbo_count exSu exGs 0 = 1
      ∧ rbo_count exSu exGs 1 = 1
      ∧ rbo_count exSu exGs 2 = 2
      ∧ (rank_biased_overlap E0 dummySeries exSu exGs 1).1 ≠ 2 := by
  refine ⟨?_, by decide, by decide, by decide, ?_⟩ <;>
    simp +decide [rank_biased_overlap, rbo_go, rbo_count, exSu, exGs] <;>
    norm_num

/-- C1: for a BOTH-mode gene set, with either ranked flag, whenever the
selector returns score/dispersion pairs `p` on the up-gene list against
the up value source and `q` on the down-gene list against the down value
source, `scorefun` returns the record whose score is the sum of the two
scores and whose var is the sum of the two dispersions. -/
theorem scorefun_both_sum (E : Externals) (gs : GeneSet) (x : Table)
    (method : String) (mp : MethodParams) (barcode : String) (ranked : Bool)
    (p q : ℚ × ℚ) (hm : gs.mode = "BOTH")
    (hu : method_selector E gs x (upSource x ranked) gs.genes_up method mp
            = .ok (.pair p))
    (hd : method_selector E gs x (dnSource x ranked) gs.genes_dn method mp
            = .ok (.pair q)) :
    scorefun E gs x method mp barcode ranked
      = .ok ⟨barcode, gs.name, gs.mode, .num (p.1 + q.1), .num (p.2 + q.2)⟩ := by
  cases ranked with
  | false =>
    simp only [upSource, dnSource] at hu hd
    simp [scorefun, hm, hu, hd, bothRecord, selItem0, selItem1, pyAdd]
  | true =>
    simp only [upSource, dnSource] at hu hd
    simp [scorefun, hm, hu, hd, bothRecord, selItem0, selItem1, pyAdd]

/-- C1 (witness): the BOTH/unranked fixture with method `summed_up`; both
selector calls use the counts column and the combined record sums the two
scores and the two dispersions. -/
theorem scorefun_both_sum_witness :
    gsB.mode = "BOTH"
      ∧ method_selector E0 gsB xW (upSource xW false) gsB.genes_up "summed_up" mp0
          = .ok (.pair (summed_up E0 [3]))
      ∧ method_selector E0 gsB xW (dnSource xW false) gsB.genes_dn "summed_up" mp0
          = .ok (.pair (summed_up E0 [5]))
      ∧ scorefun E0 gsB xW "summed_up" mp0 "bc" false
          = .ok ⟨"bc", gsB.name, gsB.mode,
                 .num ((summed_up E0 [3]).1 + (summed_up E0 [5]).1),
                 .num ((summed_up E0 [3]).2 + (summed_up E0 [5]).2)⟩ :=
  ⟨rfl, rfl, rfl,
    scorefun_both_sum E0 gsB xW "summed_up" mp0 "bc" false
      (summed_up E0 [3]) (summed_up E0 [5]) rfl rfl rfl⟩

/-- C2: for an UP- or DN-mode gene set, whenever the single selector call
on the matching gene list — against the counts column when unranked and
the matching rank column when ranked — returns the pair `p`, `scorefun`
passes `p` through unchanged as the record's score and var. -/
theorem scorefun_single_pass (E : Externals) (gs : GeneSet) (x : Table)
    (method : String) (mp : MethodParams) (barcode : String) (ranked : Bool) :
    (gs.mode = "UP" → ∀ p : ℚ × ℚ,
       method_selector E gs x (upSource x ranked) gs.genes_up method mp
           = .ok (.pair p) →
       scorefun E gs x method mp barcode ranked
           = .ok ⟨barcode, gs.name, gs.mode, .num p.1, .num p.2⟩)
    ∧ (gs.mode = "DN" → ∀ p : ℚ × ℚ,
       method_selector E gs x (dnSource x ranked) gs.genes_dn method mp
           = .ok (.pair p) →
       scorefun E gs x method mp barcode ranked
           = .ok ⟨barcode, gs.name, gs.mode, .num p.1, .num p.2⟩) := by
  constructor
  · intro hm p hu
    cases ranked with
    | false =>
      simp only [upSource] at hu
      simp [scorefun, hm, hu, passRecord, selItem0, selItem1]
    | true =>
      simp only [upSource] at hu
      simp [scorefun, hm, hu, passRecord, selItem0, selItem1]
  · intro hm p hd
    cases ranked with
    | false =>
      simp only [dnSource] at hd
      simp [scorefun, hm, hd, passRecord, selItem0, selItem1]
    | true =>
      simp only [dnSource] at hd
      simp [scorefun, hm, hd, passRecord, selItem0, selItem1]

/-- C2 (witness): the UP fixture scored ranked against the uprank column
and the DN fixture scored unranked against the counts column; both records
pass the selector pair through unchanged. -/
theorem scorefun_single_pass_witness :
    (gsU.mode = "UP"
      ∧ method_selector E0 gsU xW (upSource xW true) gsU.genes_up "summed_up" mp0
          = .ok (.pair (summed_up E0 [7]))
      ∧ scorefun E0 gsU xW "summed_up" mp0 "bc" true
          = .ok ⟨"bc", gsU.name, gsU.mode,
                 .num (summed_up E0 [7]).1, .num (summed_up E0 [7]).2⟩)
    ∧ (gsD.mode = "DN"
      ∧ method_selector E0 gsD xW (dnSource xW false) gsD.genes_dn "summed_up" mp0
          = .ok (.pair (summed_up E0 [5]))
      ∧ scorefun E0 gsD xW "summed_up" mp0 "bc" false
          = .ok ⟨"bc", gsD.name, gsD.mode,
                 .num (summed_up E0 [5]).1, .num (summed_up E0 [5]).2⟩) :=
  ⟨⟨rfl, rfl,
    (scorefun_single_pass E0 gsU xW "summed_up" mp0 "bc" true).1 rfl
      (summed_up E0 [7]) rfl⟩,
   ⟨rfl, rfl,
    (scorefun_single_pass E0 gsD xW "summed_up" mp0 "bc" false).2 rfl
      (summed_up E0 [5]) rfl⟩⟩

/-- C5: the scoring functions themselves match the method table —
`median_score` maps its single argument to `(median, MAD)` (with
`median_score([1,2,3,100])` scoring `2.5` as the spec's example requires)
and `average_score` maps its single argument to `(mean, std)` — but the
dispatcher does not call them that way: the `median_score` and
`average_score` branches pass two positional arguments to these
one-parameter functions, and the `rank_biased_overlap` branch passes five
positional arguments (including the extra `gs.mode`) to a function of at
most four, so all three branches raise `TypeError` instead of returning
the table's `(score, dispersion)` pair. -/
theorem method_selector_arity_divergence (E : Externals) (gs : GeneSet)
    (x : Table) (e : Series) (genes : List String) (mp : MethodParams) :
    method_selector E gs x e genes "median_score" mp
        = .error (.typeError "median_score")
      ∧ method_selector E gs x e genes "average_score" mp
        = .error (.typeError "average_score")
      ∧ method_selector E gs x e genes "rank_biased_overlap" mp
        = .error (.typeError "rank_biased_overlap")
      ∧ (∀ su, median_score E su = (np_medianQ su, mad E su))
      ∧ (∀ su, average_score E su = (np_mean su, np_std E su))
      ∧ (median_score E0 [1, 2, 3, 100]).1 = 5 / 2 := by
  refine ⟨rfl, rfl, rfl, fun su => rfl, fun su => rfl, ?_⟩
  simp +decide [median_score, np_medianQ, List.insertionSort, List.orderedInsert]
  norm_num

/-- C6 (amended): for every method name outside the seven dispatched ones,
`method_selector` does return the explicit, distinguishable string
`"ERROR"` instead of a score, an exception or a silent default — but
`scorefun` does not propagate that result unchanged: it subscripts it
positionally like a tuple, so the caller receives an ordinary-shaped
record whose score field is the one-character string `"E"` and whose var
field is `"R"` (concatenated to `"EE"` and `"RR"` by the BOTH mode). -/
theorem unknown_method_mangled (E : Externals) (gs : GeneSet) (x : Table)
    (method : String) (mp : MethodParams) (barcode : String)
    (h1 : method ≠ "singscore") (h2 : method ≠ "robust_std")
    (h3 : method ≠ "summed_up") (h4 : method ≠ "median_score")
    (h5 : method ≠ "average_score") (h6 : method ≠ "mean_z")
    (h7 : method ≠ "rank_biased_overlap") (hmode : gs.mode = "UP") :
    (∀ (e : Series) (genes : List String),
        method_selector E gs x e genes method mp = .ok .errstr)
      ∧ scorefun E gs x method mp barcode false
        = .ok ⟨barcode, gs.name, gs.mode, .str "E", .str "R"⟩ := by
  have hsel : ∀ (e : Series) (genes : List String),
      method_selector E gs x e genes method mp = .ok .errstr := by
    intro e genes
    simp [method_selector, h1, h2, h3, h4, h5, h6, h7]
  refine ⟨hsel, ?_⟩
  simp [scorefun, hmode, hsel, passRecord, selItem0, selItem1]

/-- C6 (witness): the unknown method name `"foo"` on the UP fixture. -/
theorem unknown_method_mangled_witness :
    (("foo" : String) ≠ "singscore" ∧ ("foo" : String) ≠ "robust_std"
        ∧ ("foo" : String) ≠ "summed_up" ∧ ("foo" : String) ≠ "median_score"
        ∧ ("foo" : String) ≠ "average_score" ∧ ("foo" : String) ≠ "mean_z"
        ∧ ("foo" : String) ≠ "rank_biased_overlap" ∧ gsU.mode = "UP")
      ∧ ((∀ (e : Series) (genes : List String),
            method_selector E0 gsU xW e genes "foo" mp0 = .ok .errstr)
          ∧ scorefun E0 gsU xW "foo" mp0 "bc" false
            = .ok ⟨"bc", gsU.name, gsU.mode, .str "E", .str "R"⟩) :=
  ⟨⟨by decide, by decide, by decide, by decide, by decide, by decide,
    by decide, rfl⟩,
   unknown_method_mangled E0 gsU xW "foo" mp0 "bc" (by decide) (by decide)
     (by decide) (by decide) (by decide) (by decide) (by decide) rfl⟩

/-- C6 (counterexample): with the unknown method `"foo"` the selector
returns `"ERROR"`, yet the record `scorefun` hands to its caller carries
the sliced characters `"E"` and `"R"`, not the `"ERROR"` result unchanged
— and in BOTH mode the concatenations `"EE"` and `"RR"`. -/
theorem unknown_method_counterexample :
    method_selector E0 gsU xW (Table.counts xW) gsU.genes_up "foo" mp0
        = .ok .errstr
      ∧ scorefun E0 gsU xW "foo" mp0 "bc" false
        = .ok ⟨"bc", "s", "UP", .str "E", .str "R"⟩
      ∧ scorefun E0 gsB xW "foo" mp0 "bc" false
        = .ok ⟨"bc", "sig", "BOTH", .str "EE", .str "RR"⟩
      ∧ (PyVal.str "E" : PyVal) ≠ .str "ERROR"
      ∧ (PyVal.str "R" : PyVal) ≠ .str "ERROR"
      ∧ (PyVal.str "EE" : PyVal) ≠ .str "ERROR" :=
  ⟨rfl, rfl, rfl, by decide, by decide, by decide⟩

/-- C7: whenever the external normalisation collaborator honours its
contract of returning a value in `[0, 1]`, `singscore` scores the
collaborator's value on the mean of the extracted values shifted down by
`0.5` — hence always a score in `[-0.5, 0.5]` — and returns the MAD of
the extracted values as dispersion. -/
theorem singscore_bounded (E : Externals) (x : Series) (su : List ℚ)
    (sig_len : ℕ) (nm : String)
    (h : ∀ (nm2 : String) (L : ℕ) (sl : List ℚ) (s : ℚ) (k : ℕ),
           0 ≤ E.normalisation nm2 L sl s k ∧ E.normalisation nm2 L sl s k ≤ 1) :
    (singscore E x su sig_len nm).1
        = E.normalisation nm x.index.length su (np_mean su) sig_len - 1 / 2
      ∧ -(1 / 2) ≤ (singscore E x su sig_len nm).1
      ∧ (singscore E x su sig_len nm).1 ≤ 1 / 2
      ∧ (singscore E x su sig_len nm).2 = mad E su := by
  obtain ⟨h0, h1⟩ := h nm x.index.length su (np_mean su) sig_len
  refine ⟨rfl, ?_, ?_, rfl⟩ <;> simp only [singscore] <;> linarith

/-- C7 (witness): the constantly-zero normalisation collaborator of the
fixture lies in `[0, 1]`, and the resulting score on a concrete series is
`-0.5`, inside `[-0.5, 0.5]`. -/
theorem singscore_bounded_witness :
    (∀ (nm2 : String) (L : ℕ) (sl : List ℚ) (s : ℚ) (k : ℕ),
        0 ≤ E0.normalisation nm2 L sl s k ∧ E0.normalisation nm2 L sl s k ≤ 1)
      ∧ ((singscore E0 (Table.counts xW) [1, 2] 2 "standard").1
            = E0.normalisation "standard" (Table.counts xW).index.length [1, 2]
                (np_mean [1, 2]) 2 - 1 / 2
          ∧ -(1 / 2) ≤ (singscore E0 (Table.counts xW) [1, 2] 2 "standard").1
          ∧ (singscore E0 (Table.counts xW) [1, 2] 2 "standard").1 ≤ 1 / 2
          ∧ (singscore E0 (Table.counts xW) [1, 2] 2 "standard").2
            = mad E0 [1, 2]) :=
  ⟨fun _ _ _ _ _ => ⟨le_refl 0, zero_le_one⟩,
   singscore_bounded E0 (Table.counts xW) [1, 2] 2 "standard"
     (fun _ _ _ _ _ => ⟨le_refl 0, zero_le_one⟩)⟩

/-- C8: for a non-empty extracted sequence, `mean_z` scores the mean over
the extracted values of the absolute deviation from the population mean
divided by the population standard deviation, and returns the population
standard deviation as dispersion. -/
theorem mean_z_formula (E : Externals) (exprdat : Series) (su : List ℚ)
    (h : su ≠ []) :
    (mean_z E exprdat su).1
        = (su.map (fun v =>
              |v - np_mean (Series.values exprdat)|
                / np_std E (Series.values exprdat))).sum / (su.length : ℚ)
      ∧ (mean_z E exprdat su).2 = np_std E (Series.values exprdat) := by
  constructor
  · simp [mean_z, np_mean]
  · rfl

/-- C8 (witness): `mean_z` on the two-gene counts column with the
non-empty extracted sequence `[1, 2]`. -/
theorem mean_z_formula_witness :
    ([1, 2] ≠ ([] : List ℚ))
      ∧ ((mean_z E0 (Table.counts xW) [1, 2]).1
            = ([1, 2].map (fun v =>
                  |v - np_mean (Series.values (Table.counts xW))|
                    / np_std E0 (Series.values (Table.counts xW)))).sum
              / (([1, 2] : List ℚ).length : ℚ)
          ∧ (mean_z E0 (Table.counts xW) [1, 2]).2
            = np_std E0 (Series.values (Table.counts xW))) :=
  ⟨by simp, mean_z_formula E0 (Table.counts xW) [1, 2] (by simp)⟩

/-- C9 (amended): degenerate population dispersion is not detected — even
when the population standard deviation and MAD are both zero, the
`mean_z` and `robust_std` branches of `method_selector` perform the
divisions unguarded and hand the caller an ordinary `(score, dispersion)`
pair (at Python runtime the division silently propagates inf/nan), with
no explicit degenerate-input condition on any path. -/
theorem degenerate_dispersion_unguarded (E : Externals) (gs : GeneSet)
    (x : Table) (e : Series) (genes : List String) (mp : MethodParams)
    (hstd : np_std E (Series.values e) = 0)
    (hmad : mad E (Series.values e) = 0) :
    method_selector E gs x e genes "mean_z" mp
        = .ok (.pair (mean_z E e (expr_format x e genes).1))
      ∧ method_selector E gs x e genes "robust_std" mp
        = .ok (.pair (robust_std E e (expr_format x e genes).1)) :=
  ⟨rfl, rfl⟩

/-- C9 (witness): the constant table has zero population std and MAD, and
both degenerate-divisor methods still return plain score pairs. -/
theorem degenerate_dispersion_unguarded_witness :
    (np_std E0 (Series.values (Table.counts xDeg)) = 0
        ∧ mad E0 (Series.values (Table.counts xDeg)) = 0)
      ∧ (method_selector E0 gsDg xDeg (Table.counts xDeg) ["gA"] "mean_z" mp0
            = .ok (.pair (mean_z E0 (Table.counts xDeg)
                (expr_format xDeg (Table.counts xDeg) ["gA"]).1))
          ∧ method_selector E0 gsDg xDeg (Table.counts xDeg) ["gA"] "robust_std" mp0
            = .ok (.pair (robust_std E0 (Table.counts xDeg)
                (expr_format xDeg (Table.counts xDeg) ["gA"]).1))) :=
  ⟨⟨by simp +decide [np_std, np_varQ, np_mean, E0, xDeg, Table.counts, Series.values],
    by simp +decide [mad, np_medianQ, E0, xDeg, Table.counts, Series.values,
      List.insertionSort, List.orderedInsert]⟩,
   degenerate_dispersion_unguarded E0 gsDg xDeg (Table.counts xDeg) ["gA"] mp0
     (by simp +decide [np_std, np_varQ, np_mean, E0, xDeg, Table.counts, Series.values])
     (by simp +decide [mad, np_medianQ, E0, xDeg, Table.counts, Series.values,
       List.insertionSort, List.orderedInsert])⟩

/-- C9 (counterexample): on the constant-1 counts column both population
dispersions are zero, yet the `mean_z` and `robust_std` selector branches
return ordinary `.ok` score pairs — no error, no exception, no sentinel:
the claimed explicit degenerate-input condition does not exist in the
code. -/
theorem degenerate_dispersion_counterexample :
    np_std E0 (Series.values (Table.counts xDeg)) = 0
      ∧ mad E0 (Series.values (Table.counts xDeg)) = 0
      ∧ method_selector E0 gsDg xDeg (Table.counts xDeg) ["gA"] "mean_z" mp0
        = .ok (.pair (mean_z E0 (Table.counts xDeg) [1]))
      ∧ method_selector E0 gsDg xDeg (Table.counts xDeg) ["gA"] "robust_std" mp0
        = .ok (.pair (robust_std E0 (Table.counts xDeg) [1]))
      ∧ (∀ r : ℚ × ℚ,
          (Except.ok (SelVal.pair r) : Except PyExn SelVal)
            ≠ .error (.typeError "degenerate input")) := by
  refine ⟨?_, ?_, rfl, rfl, fun r h => Except.noConfusion h⟩
  · simp +decide [np_std, np_varQ, np_mean, E0, xDeg, Table.counts, Series.values]
  · simp +decide [mad, np_medianQ, E0, xDeg, Table.counts, Series.values,
      List.insertionSort, List.orderedInsert]

/-- C10: `scorefun` assigns its result record only in the six branches for
mode `UP`, `DN` or `BOTH` with a boolean ranked flag; for every other mode
no branch assigns `res1` and the trailing `return res1` raises
`UnboundLocalError` instead of returning a score record. -/
theorem scorefun_unbound (E : Externals) (gs : GeneSet) (x : Table)
    (method : String) (mp : MethodParams) (barcode : String) (ranked : Bool)
    (h1 : gs.mode ≠ "UP") (h2 : gs.mode ≠ "DN") (h3 : gs.mode ≠ "BOTH") :
    scorefun E gs x method mp barcode ranked
      = .error (.unboundLocal "res1") := by
  simp [scorefun, h1, h2, h3]

/-- C10 (witness): the fixture gene set with mode `"SIDEWAYS"`. -/
theorem scorefun_unbound_witness :
    (gsS.mode ≠ "UP" ∧ gsS.mode ≠ "DN" ∧ gsS.mode ≠ "BOTH")
      ∧ scorefun E0 gsS xW "summed_up" mp0 "bc" false
        = .error (.unboundLocal "res1") :=
  ⟨⟨by decide, by decide, by decide⟩,
   scorefun_unbound E0 gsS xW "summed_up" mp0 "bc" false
     (by decide) (by decide) (by decide)⟩

end Gssnng
